import Mathlib

/-!
Verification of `src/brave_textual_search.py` (finsteininvest/textualsearch).

Shallow embedding of the parts of the program the claims are about:

* query normalization (`on_input_submitted`, line 440: `(event.value or "").strip()`),
* the clicked-URL store (`_load_clicked` / `_save_clicked` / `self.clicked`,
  lines 56-69, 319, 393),
* the result filter in `_search_thread` (lines 373-374),
* the `brave_search` HTTP call with its tenacity retry decorator (lines 144-190),
* the `open_result` handler (lines 388-401).

Machine strings are Lean `String`s (lists of characters), Python sets of strings
are `Finset String`, parsed JSON values are the inductive `PyJson`, and the
tenacity-driven retry loop is an explicit fuel-bounded recursion with sleeps
accumulated as rationals.
-/

/-- Python whitespace characters stripped by `str.strip()` (ASCII range; the
source only ever strips typed-in queries, so the exotic Unicode space code
points are out of scope of this model). -/
def isPySpace (c : Char) : Bool :=
  c = ' ' || c = '\t' || c = '\n' || c = '\r' || c = '\x0b' || c = '\x0c'

/-- `str.strip()` on the character list: drop whitespace from the front, then
from the back. -/
def stripChars (l : List Char) : List Char :=
  List.rdropWhile isPySpace (l.dropWhile isPySpace)

/-- The query normalization actually performed by the program: line 440,
`q = (event.value or "").strip()`.  There is no lowercasing and no collapsing
of internal whitespace anywhere in the source. -/
def normalizeQuery (s : String) : String :=
  String.mk (stripChars s.data)

/-- One search hit as built by `_extract_web_results` (dataclass `SearchResult`,
lines 111-116). -/
structure SearchResult where
  title : String
  url : String
  snippet : Option String := none
  age : Option String := none
deriving DecidableEq

/-- The click history as held in `self.clicked`: a single global Python set of
URL strings.  The program has no per-query keying anywhere. -/
abbrev ClickedSet := Finset String

/-- `self.clicked.add(result.url)` from `open_result` (line 393). -/
def recordClick (clicked : ClickedSet) (url : String) : ClickedSet :=
  insert url clicked

/-- How the program consults click history: plain membership of the url in the
global set (`r.url not in self.clicked`, line 373).  The spec's
`is_clicked(store, key, url)` corresponds to this; the code takes no key. -/
def isClicked (clicked : ClickedSet) (url : String) : Bool :=
  decide (url ∈ clicked)

/-- The filter step of `_search_thread` (lines 373-374):
`filtered = [r for r in all_results if r.url and r.url not in self.clicked]`
and `hidden = len(all_results) - len(filtered)`.  Returns (visible, hidden). -/
def searchFilter (allResults : List SearchResult) (clicked : ClickedSet) :
    List SearchResult × Nat :=
  let filtered := allResults.filter fun r => decide (r.url ≠ "") && decide (r.url ∉ clicked)
  (filtered, allResults.length - filtered.length)

/-- A parsed JSON value as `json.loads` would produce it. -/
inductive PyJson where
  | nullv
  | boolv (b : Bool)
  | intv (n : Int)
  | str (s : String)
  | arr (xs : List PyJson)
  | obj (kvs : List (String × PyJson))

/-- The string payload of a JSON value, when it is a string. -/
def PyJson.asString : PyJson → Option String
  | .str s => some s
  | _ => none

/-- The string payloads of a list of JSON values, when every member is a
string. -/
def allStrings : List PyJson → Option (List String)
  | [] => some []
  | x :: xs =>
    match x.asString, allStrings xs with
    | some s, some t => some (s :: t)
    | _, _ => none

/-- `set(v)` for a parsed JSON value `v`, restricted to the cases the clicked
store can hold: a JSON array whose members are all strings becomes the set of
those strings.  Every other shape is mapped to `none`, which `loadClicked`
folds into the empty store: for non-iterable values (`null`, numbers,
booleans) this is exactly the `TypeError` → `except` → `set()` path of
`_load_clicked`; arrays with non-string members or objects would give a
Python set containing values that can never equal a result's url string, so
for every use of the store (string membership) the empty set is
extensionally the same. -/
def pySetOfJson : PyJson → Option ClickedSet
  | .arr xs => (allStrings xs).map List.toFinset
  | _ => none

/-- The on-disk states `_load_clicked` distinguishes: no file, a file whose
text `json.loads` rejects, or a file holding a parsed JSON value. -/
inductive ClickFile where
  | missing
  | malformed
  | json (j : PyJson)

/-- `_load_clicked` (lines 56-62): missing file → empty set; any exception
while reading/parsing/converting → empty set; otherwise `set(json.loads(text))`. -/
def loadClicked : ClickFile → ClickedSet
  | .missing => ∅
  | .malformed => ∅
  | .json j => (pySetOfJson j).getD ∅

/-- `_save_clicked` (lines 64-69): writes `json.dumps(sorted(clicked))`, i.e.
a JSON array of the URLs in sorted order. -/
def saveClicked (clicked : ClickedSet) : PyJson :=
  .arr ((clicked.sort (· ≤ ·)).map .str)

/-- The exceptions the tenacity decorator on `brave_search` can see:
`BraveSearchError msg` or a `requests.RequestException` transport failure. -/
inductive BraveErr where
  | searchError (msg : String)
  | requestException
deriving DecidableEq

/-- `retry_if_exception_type((requests.RequestException, BraveSearchError))`
(line 147): every exception `brave_search` raises is an instance of one of the
two listed types, so every failure is retried. -/
def retryableErr : BraveErr → Bool
  | .searchError _ => true
  | .requestException => true

/-- What the network returns for one `requests.get` call: a transport-level
failure (a `requests.RequestException`) or an HTTP response with status code,
optional `Retry-After` header value, body text, and the JSON payload that
`resp.json()` would yield. -/
inductive NetResponse where
  | transportError
  | http (status : Nat) (retryAfter : Option String) (body : String) (payload : PyJson)

/-- Python string slicing `s[:n]`: the first `n` characters. -/
def pySlice (s : String) (n : Nat) : String :=
  String.mk (s.data.take n)

/-- Python truthiness of a `str`-or-`None` value. -/
def pyTruthy : Option String → Bool
  | none => false
  | some s => decide (s ≠ "")

/-- Python `a or b` on `str`-or-`None` values (used at line 162,
`api_key or os.getenv("BRAVE_API_KEY")`). -/
def pyOrOpt (a b : Option String) : Option String :=
  match a with
  | none => b
  | some s => if s = "" then b else some s

/-- `float(ra)` for the `Retry-After` header (line 184), modelled on the
inputs that header carries in the claims: a non-empty all-digit string parses
to its numeric value, anything else is the `except: pass` path (`none`).
(Python's `float` also accepts fractional syntax; no claim exercises it.) -/
def pyFloat (s : String) : Option ℚ :=
  if s ≠ "" ∧ s.data.all Char.isDigit then
    some ((s.data.foldl (fun n c => 10 * n + (c.toNat - 48)) 0 : Nat) : ℚ)
  else none

/-- The outcome of one body execution of `brave_search`: the returned payload
or the raised exception, whether a network request was issued, and how long
the body itself slept (the `time.sleep(float(ra))` on a 429). -/
structure AttemptResult where
  outcome : Except BraveErr PyJson
  networkCall : Bool
  sleepSecs : ℚ

/-- One execution of the `brave_search` body (lines 150-190): resolve the key
(`api_key or os.getenv(...)`), fail before any request if it is falsy; else
issue the request; on 429 sleep the parsed `Retry-After` (if any) and raise;
on any other status ≥ 400 raise with status and a 400-character body excerpt;
otherwise return `resp.json()`. -/
def braveSearchBody (apiKey envKey : Option String) (net : NetResponse) : AttemptResult :=
  let key := pyOrOpt apiKey envKey
  if pyTruthy key = false then
    ⟨.error (.searchError "Missing BRAVE_API_KEY (export or .env)"), false, 0⟩
  else
    match net with
    | .transportError => ⟨.error .requestException, true, 0⟩
    | .http status retryAfter body payload =>
      if status = 429 then
        let slp : ℚ :=
          match retryAfter with
          | none => 0
          | some ra => if ra = "" then 0 else (pyFloat ra).getD 0
        ⟨.error (.searchError "Rate limited (429)"), true, slp⟩
      else if 400 ≤ status then
        ⟨.error (.searchError ("HTTP " ++ toString status ++ ": " ++ pySlice body 400)), true, 0⟩
      else
        ⟨.ok payload, true, 0⟩

/-- tenacity `wait_exponential(multiplier=0.7, min=0.7, max=4)` (line 146):
the sleep inserted after failed attempt number `n` is
`clamp(0.7 * 2 ^ (n - 1), 0.7, 4)`. -/
def tenacityWait (n : Nat) : ℚ :=
  min 4 (max (7 / 10) ((7 / 10) * 2 ^ (n - 1)))

/-- The observable outcome of a decorated `brave_search(...)` call: the final
result (`reraise=True` reraises the last exception), how many times the body
ran, how many network requests were issued, and the waits that elapsed
between consecutive attempts (body sleep plus tenacity backoff). -/
structure RunResult where
  outcome : Except BraveErr PyJson
  attempts : Nat
  networkCalls : Nat
  waits : List ℚ

/-- The tenacity driver: run the body; on success return; on a retryable
exception with attempts remaining (`stop_after_attempt(3)`, line 145), wait
and run again; otherwise reraise.  `net k` is the response the network gives
to the `k`-th issued request (0-based).  `fuel` is the number of attempts
still allowed, `attemptNo` the 1-based number of the attempt being run. -/
def tenacityLoop (apiKey envKey : Option String) (net : Nat → NetResponse) :
    Nat → Nat → Nat → List ℚ → RunResult
  | 0, attemptNo, calls, waits => ⟨.error .requestException, attemptNo, calls, waits⟩
  | fuel + 1, attemptNo, calls, waits =>
    let att := braveSearchBody apiKey envKey (net calls)
    let calls2 := calls + (if att.networkCall then 1 else 0)
    match att.outcome with
    | .ok payload => ⟨.ok payload, attemptNo, calls2, waits⟩
    | .error e =>
      if fuel = 0 ∨ retryableErr e = false then
        ⟨.error e, attemptNo, calls2, waits⟩
      else
        tenacityLoop apiKey envKey net fuel (attemptNo + 1) calls2
          (waits ++ [att.sleepSecs + tenacityWait attemptNo])

/-- A full decorated `brave_search` call: up to 3 attempts, starting at
attempt 1 with no requests issued yet. -/
def braveSearchRun (apiKey envKey : Option String) (net : Nat → NetResponse) : RunResult :=
  tenacityLoop apiKey envKey net 3 1 0 []

/-- Python `a or b` on two strings (line 392, `self.current_query or self.query`,
and line 401, `result.title or result.url`). -/
def pyOrStr (a b : String) : String :=
  if a = "" then b else a

/-- The observable state `open_result` can touch: the clicked set, the audit
log rows (`click_log.csv` records: timestamp, query, title, url), the list of
urls handed to the browser, the number of `_save_clicked` persistence writes,
the displayed result list, the status line, and the two query fields. -/
structure AppState where
  clicked : ClickedSet
  logRows : List (String × String × String × String)
  browserCalls : List String
  saveCount : Nat
  visible : List SearchResult
  status : String
  currentQuery : String
  query : String

/-- `open_result` (lines 388-401).  `result` is the resolved selection (`None`
when nothing resolves), `sourceIdx` the position of the originating list item
(when one was passed), `ts` the timestamp string, and `browserOk` whether the
browser launch reported success.  When `result` is falsy or its url is empty
the body is skipped entirely; otherwise: launch browser, append an audit row
with `self.current_query or self.query or ""` as the query, add the url to
the clicked set, persist, remove the source item from the list, set the
status line. -/
def openResult (st : AppState) (result : Option SearchResult)
    (sourceIdx : Option Nat) (ts : String) (browserOk : Bool) : AppState :=
  match result with
  | none => st
  | some r =>
    if r.url = "" then st
    else
      { st with
        browserCalls := st.browserCalls ++ [r.url]
        logRows := st.logRows ++ [(ts, pyOrStr st.currentQuery (pyOrStr st.query ""), r.title, r.url)]
        clicked := recordClick st.clicked r.url
        saveCount := st.saveCount + 1
        visible := match sourceIdx with
          | some i => st.visible.eraseIdx i
          | none => st.visible
        status := (if browserOk then "Opened: " else "Tried to open: ") ++ pyOrStr r.title r.url }

/-! ## Helper lemmas -/

/-- The result of `stripChars` has no leading whitespace. -/
lemma stripChars_dropWhile_eq (l : List Char) :
    (stripChars l).dropWhile isPySpace = stripChars l := by
  rw [List.dropWhile_eq_self_iff]
  intro hl
  have hpre := List.rdropWhile_prefix isPySpace (l.dropWhile isPySpace)
  have hlen : 0 < (l.dropWhile isPySpace).length :=
    lt_of_lt_of_le hl hpre.length_le
  have hget : (stripChars l).get ⟨0, hl⟩ = (l.dropWhile isPySpace).get ⟨0, hlen⟩ := by
    simpa [List.get_eq_getElem] using hpre.getElem hl
  rw [hget]
  exact List.dropWhile_get_zero_not isPySpace l hlen

/-- Stripping is idempotent at the character-list level. -/
lemma stripChars_idem (l : List Char) : stripChars (stripChars l) = stripChars l := by
  show List.rdropWhile isPySpace ((stripChars l).dropWhile isPySpace) = stripChars l
  rw [stripChars_dropWhile_eq]
  exact List.rdropWhile_idempotent isPySpace (l.dropWhile isPySpace)

/-- A result whose url is in the clicked set never survives the filter. -/
lemma not_mem_searchFilter_of_clicked (results : List SearchResult) (clicked : ClickedSet)
    (r : SearchResult) (h : r.url ∈ clicked) : r ∉ (searchFilter results clicked).1 := by
  simp only [searchFilter]
  intro hmem
  have h2 := (List.mem_filter.mp hmem).2
  simp only [Bool.and_eq_true, decide_eq_true_eq] at h2
  exact h2.2 h

/-- A result with an empty url never survives the filter. -/
lemma not_mem_searchFilter_of_empty_url (results : List SearchResult) (clicked : ClickedSet)
    (r : SearchResult) (h : r.url = "") : r ∉ (searchFilter results clicked).1 := by
  simp only [searchFilter]
  intro hmem
  have h2 := (List.mem_filter.mp hmem).2
  simp [h] at h2

/-! ## C5: query normalization -/

/-- Claim C5 counterexample: the claim says the case variant and
internal-whitespace variant queries "Foo  Bar" and "foo bar" normalize to the
identical key.  The program only strips end whitespace (line 440), so the two
keys differ. -/
theorem c5_caseWhitespace_counterexample :
    normalizeQuery "Foo  Bar" ≠ normalizeQuery "foo bar" := by decide

/-- Claim C5 (amended): normalization (`.strip()`, line 440) is idempotent,
but it only removes leading/trailing whitespace — it neither lowercases nor
collapses internal whitespace, so variants in case or internal whitespace do
not share a key. -/
theorem c5_normalizeIdempotent (s : String) :
    normalizeQuery (normalizeQuery s) = normalizeQuery s := by
  show String.mk (stripChars (String.mk (stripChars s.data)).data) = String.mk (stripChars s.data)
  exact congrArg String.mk (stripChars_idem s.data)

/-! ## C8: hidden + visible = total -/

/-- Claim C8: the filter of `_search_thread` (lines 373-374) satisfies
`hidden_count + len(visible) == len(raw_results)` for every raw result list
and clicked set. -/
theorem c8_hiddenPlusVisible (results : List SearchResult) (clicked : ClickedSet) :
    (searchFilter results clicked).2 + (searchFilter results clicked).1.length
      = results.length := by
  simp only [searchFilter]
  exact Nat.sub_add_cancel (List.length_filter_le _ _)

/-! ## C6: results without a url -/

/-- Claim C6 counterexample: the claim says a result whose url is empty always
appears in the visible output.  In the code the comprehension condition
`r.url and r.url not in self.clicked` (line 373) is falsy for an empty url, so
such a result is removed and counted as hidden. -/
theorem c6_emptyUrlKept_counterexample :
    (⟨"t", "", none, none⟩ : SearchResult) ∉
      (searchFilter [⟨"t", "", none, none⟩] ∅).1 ∧
    (searchFilter [(⟨"t", "", none, none⟩ : SearchResult)] ∅).2 = 1 := by decide

/-- Claim C6 (amended): a result whose url is empty is always removed by the
filter (and counted in `hidden_count`, by `c8_hiddenPlusVisible`'s accounting),
regardless of the clicked set. -/
theorem c6_emptyUrlFiltered (results : List SearchResult) (clicked : ClickedSet)
    (r : SearchResult) (h : r.url = "") :
    r ∉ (searchFilter results clicked).1 :=
  not_mem_searchFilter_of_empty_url results clicked r h

/-- Witness for `c6_emptyUrlFiltered` at a concrete input. -/
theorem c6_emptyUrlFiltered_witness :
    (⟨"t2", "", none, none⟩ : SearchResult) ∉
      (searchFilter [⟨"t2", "", none, none⟩, ⟨"t3", "u3", none, none⟩] ∅).1 :=
  c6_emptyUrlFiltered _ ∅ _ rfl

/-! ## C1: per-query click isolation -/

/-- Claim C1 counterexample: the claim says a url recorded under one query is
not hidden when filtering for a query whose normalized key differs.  The
queries "a" and "b" normalize to different keys, yet after recording
"http://x" (under "a") the filter hides the result with that url when
searching for "b" too, because `self.clicked` (line 373/393) is a single
global set with no query keying. -/
theorem c1_perQueryIsolation_counterexample :
    normalizeQuery "a" ≠ normalizeQuery "b" ∧
    (⟨"t", "http://x", none, none⟩ : SearchResult) ∉
      (searchFilter [⟨"t", "http://x", none, none⟩] (recordClick ∅ "http://x")).1 := by
  decide

/-- Claim C1 (amended): click history is global, not per-query.  A url
recorded under any query is reported clicked and hidden by the filter under
every query — for pairs of queries with the same normalized key and for pairs
with different keys alike, since neither `recordClick` (line 393) nor the
filter (line 373) consults a query key. -/
theorem c1_globalClickHistory (clicked : ClickedSet) (u : String)
    (results : List SearchResult) (r : SearchResult) (h : r.url = u) :
    isClicked (recordClick clicked u) u = true ∧
    r ∉ (searchFilter results (recordClick clicked u)).1 := by
  constructor
  · simp [isClicked, recordClick]
  · exact not_mem_searchFilter_of_clicked results _ r
      (by rw [h]; exact Finset.mem_insert_self u clicked)

/-- Witness for `c1_globalClickHistory` at a concrete input. -/
theorem c1_globalClickHistory_witness :
    isClicked (recordClick ∅ "http://y") "http://y" = true ∧
    (⟨"s", "http://y", none, none⟩ : SearchResult) ∉
      (searchFilter [⟨"s", "http://y", none, none⟩] (recordClick ∅ "http://y")).1 :=
  c1_globalClickHistory ∅ "http://y" _ _ rfl

/-! ## C2: legacy flat-list store -/

/-- Claim C2 counterexample: the claim says urls loaded from a legacy bare
JSON array are kept under a sentinel key, report unclicked for every live key,
and do not affect any query's filter.  In the code the bare array is the
only on-disk shape (`set(json.loads(...))`, line 59): its entries populate
the single global clicked set, so "http://a" reports clicked and is hidden by
the very next search. -/
theorem c2_legacySentinel_counterexample :
    isClicked
      (loadClicked (.json (.arr [.str "http://a", .str "http://b"]))) "http://a" = true ∧
    (⟨"t", "http://a", none, none⟩ : SearchResult) ∉
      (searchFilter [⟨"t", "http://a", none, none⟩]
        (loadClicked (.json (.arr [.str "http://a", .str "http://b"])))).1 := by
  decide

/-- `allStrings` undoes `List.map PyJson.str`. -/
lemma allStrings_map_str (l : List String) :
    allStrings (l.map PyJson.str) = some l := by
  induction l with
  | nil => rfl
  | cons a t ih => simp [allStrings, ih, PyJson.asString]

/-- Loading a bare JSON array of strings yields exactly that set of urls. -/
lemma loadClicked_legacy (urls : List String) :
    loadClicked (.json (.arr (urls.map .str))) = urls.toFinset := by
  simp [loadClicked, pySetOfJson, allStrings_map_str]

/-- Claim C2 (amended): loading a legacy bare JSON array of url strings
succeeds, and the entries are imported into the single global clicked set —
there is no sentinel key, every listed url reports clicked, and every such
url is hidden by the filter for every subsequent query. -/
theorem c2_legacyImportGlobal (urls : List String) (u : String) (hu : u ∈ urls)
    (results : List SearchResult) (r : SearchResult) (hr : r.url = u) :
    isClicked (loadClicked (.json (.arr (urls.map .str)))) u = true ∧
    r ∉ (searchFilter results (loadClicked (.json (.arr (urls.map .str))))).1 := by
  rw [loadClicked_legacy]
  constructor
  · simp [isClicked, List.mem_toFinset.mpr hu]
  · exact not_mem_searchFilter_of_clicked results _ r
      (by rw [hr]; exact List.mem_toFinset.mpr hu)

/-- Witness for `c2_legacyImportGlobal` at a concrete input. -/
theorem c2_legacyImportGlobal_witness :
    isClicked (loadClicked (.json (.arr (["http://a", "http://b"].map .str)))) "http://b" = true ∧
    (⟨"w", "http://b", none, none⟩ : SearchResult) ∉
      (searchFilter [⟨"w", "http://b", none, none⟩]
        (loadClicked (.json (.arr (["http://a", "http://b"].map .str))))).1 :=
  c2_legacyImportGlobal ["http://a", "http://b"] "http://b" (by decide) _ _ rfl

/-! ## C9: record / save / load round-trip -/

/-- Saving then loading restores the clicked set exactly. -/
lemma load_save_roundTrip (s : ClickedSet) :
    loadClicked (.json (saveClicked s)) = s := by
  simp [loadClicked, saveClicked, pySetOfJson, allStrings_map_str, Finset.sort_toFinset]

/-- Claim C9: for every store, query `q`, and url `u`, recording `u` (the code
records under no key — `self.clicked.add`, line 393, ignores the query, so the
key `normalize(q)` of the claim is irrelevant), then saving and re-loading,
reports `u` clicked. -/
theorem c9_recordSaveLoadRoundTrip (store : ClickedSet) (q u : String) :
    isClicked (loadClicked (.json (saveClicked (recordClick store u)))) u = true := by
  rw [load_save_roundTrip]
  simp [isClicked, recordClick]

/-! ## C10: open with no url is a no-op -/

/-- Claim C10: when the resolved result is absent or has an empty url,
`open_result` (guard at line 389, `if result and result.url:`) changes
nothing: no browser call, no audit row, clicked set unchanged, no persistence
write, displayed list and status unchanged. -/
theorem c10_openResultNoUrlNoop (st : AppState) (result : Option SearchResult)
    (sourceIdx : Option Nat) (ts : String) (browserOk : Bool)
    (h : result = none ∨ ∃ r, result = some r ∧ r.url = "") :
    openResult st result sourceIdx ts browserOk = st := by
  rcases h with h | ⟨r, hr, hu⟩
  · rw [h]; rfl
  · rw [hr]; simp [openResult, hu]

/-- Witness for `c10_openResultNoUrlNoop` at a concrete input. -/
theorem c10_openResultNoUrlNoop_witness :
    openResult ⟨∅, [], [], 0, [], "st", "cq", "q"⟩
        (some ⟨"title", "", none, none⟩) none "2024-01-01T00:00:00" true
      = ⟨∅, [], [], 0, [], "st", "cq", "q"⟩ :=
  c10_openResultNoUrlNoop _ _ _ _ _ (Or.inr ⟨_, rfl, rfl⟩)

/-! ## C3: missing credential -/

/-- Claim C3 counterexample: the claim says a missing credential fails after
exactly one attempt.  `BraveSearchError` is in the decorator's
`retry_if_exception_type` list (line 147), so the missing-key failure is
retried: the decorated call runs the body 3 times (still with zero network
requests) before reraising. -/
theorem c3_missingKeySingleAttempt_counterexample :
    (braveSearchRun none none (fun _ => NetResponse.transportError)).attempts = 3 ∧
    (braveSearchRun none none (fun _ => NetResponse.transportError)).attempts ≠ 1 ∧
    (braveSearchRun none none (fun _ => NetResponse.transportError)).networkCalls = 0 ∧
    (braveSearchRun none none (fun _ => NetResponse.transportError)).outcome
      = Except.error (BraveErr.searchError "Missing BRAVE_API_KEY (export or .env)") :=
  ⟨rfl, by decide, rfl, rfl⟩

/-- Claim C3 (amended): with the credential absent (argument and environment
both `None` or empty), the call fails with the missing-key `BraveSearchError`
and issues zero network requests — but the retry decorator runs the body 3
times before reraising, not once. -/
theorem c3_missingKeyRetriedNoNetwork (apiKey envKey : Option String)
    (net : Nat → NetResponse)
    (hA : pyTruthy (pyOrOpt apiKey envKey) = false) :
    (braveSearchRun apiKey envKey net).outcome
      = Except.error (BraveErr.searchError "Missing BRAVE_API_KEY (export or .env)") ∧
    (braveSearchRun apiKey envKey net).networkCalls = 0 ∧
    (braveSearchRun apiKey envKey net).attempts = 3 := by
  have hbody : ∀ k, braveSearchBody apiKey envKey (net k)
      = ⟨Except.error (BraveErr.searchError "Missing BRAVE_API_KEY (export or .env)"),
         false, 0⟩ := by
    intro k
    simp [braveSearchBody, hA]
  simp [braveSearchRun, tenacityLoop, hbody, retryableErr]

/-- Witness for `c3_missingKeyRetriedNoNetwork` at a concrete input. -/
theorem c3_missingKeyRetriedNoNetwork_witness :
    pyTruthy (pyOrOpt (some "") none) = false ∧
    (braveSearchRun (some "") none (fun _ => NetResponse.http 200 none "" PyJson.nullv)).networkCalls = 0 ∧
    (braveSearchRun (some "") none (fun _ => NetResponse.http 200 none "" PyJson.nullv)).attempts = 3 :=
  ⟨rfl,
   (c3_missingKeyRetriedNoNetwork (some "") none _ rfl).2.1,
   (c3_missingKeyRetriedNoNetwork (some "") none _ rfl).2.2⟩

/-! ## C4: non-429 HTTP errors -/

/-- Claim C4 counterexample: the claim says a non-429 error status raises
after exactly one attempt with no retry.  Because the raised
`BraveSearchError` is in the decorator's retry list (line 147), a constant
HTTP 500 response is fetched and re-raised 3 times before the error
surfaces. -/
theorem c4_httpErrorNoRetry_counterexample :
    (braveSearchRun (some "k") none (fun _ => NetResponse.http 500 none "oops" PyJson.nullv)).attempts = 3 ∧
    (braveSearchRun (some "k") none (fun _ => NetResponse.http 500 none "oops" PyJson.nullv)).attempts ≠ 1 ∧
    (braveSearchRun (some "k") none (fun _ => NetResponse.http 500 none "oops" PyJson.nullv)).networkCalls = 3 ∧
    (braveSearchRun (some "k") none (fun _ => NetResponse.http 500 none "oops" PyJson.nullv)).outcome
      = Except.error (BraveErr.searchError "HTTP 500: oops") :=
  ⟨rfl, by decide, rfl, rfl⟩

/-- Claim C4 (amended): on an error status other than 429, every attempt
raises `BraveSearchError` carrying the status code and the body excerpt
truncated to at most 400 characters (line 189, `resp.text[:400]`) — but the
retry decorator runs 3 attempts (3 network requests) before that error is
reraised, rather than raising after a single attempt. -/
theorem c4_httpErrorRetriedWithExcerpt (apiKey envKey : Option String)
    (status : Nat) (ra : Option String) (body : String) (payload : PyJson)
    (hKey : pyTruthy (pyOrOpt apiKey envKey) = true)
    (hs : 400 ≤ status) (hns : status ≠ 429) :
    (braveSearchRun apiKey envKey (fun _ => NetResponse.http status ra body payload)).outcome
      = Except.error (BraveErr.searchError ("HTTP " ++ toString status ++ ": " ++ pySlice body 400)) ∧
    (braveSearchRun apiKey envKey (fun _ => NetResponse.http status ra body payload)).attempts = 3 ∧
    (braveSearchRun apiKey envKey (fun _ => NetResponse.http status ra body payload)).networkCalls = 3 ∧
    (pySlice body 400).length ≤ 400 := by
  have hbody : braveSearchBody apiKey envKey (NetResponse.http status ra body payload)
      = ⟨Except.error (BraveErr.searchError ("HTTP " ++ toString status ++ ": " ++ pySlice body 400)),
         true, 0⟩ := by
    unfold braveSearchBody
    simp only [hKey, Bool.true_eq_false, if_false, if_neg hns, if_pos hs]
  refine ⟨?_, ?_, ?_, ?_⟩
  · simp [braveSearchRun, tenacityLoop, hbody, retryableErr]
  · simp [braveSearchRun, tenacityLoop, hbody, retryableErr]
  · simp [braveSearchRun, tenacityLoop, hbody, retryableErr]
  · show (String.mk (body.data.take 400)).length ≤ 400
    have hlen : (String.mk (body.data.take 400)).length = (body.data.take 400).length := rfl
    rw [hlen, List.length_take]
    exact min_le_left _ _

/-- Witness for `c4_httpErrorRetriedWithExcerpt` at a concrete input. -/
theorem c4_httpErrorRetriedWithExcerpt_witness :
    pyTruthy (pyOrOpt (some "k") none) = true ∧ 400 ≤ 500 ∧ 500 ≠ 429 ∧
    (braveSearchRun (some "k") none (fun _ => NetResponse.http 500 none "server stumbled" PyJson.nullv)).attempts = 3 ∧
    (braveSearchRun (some "k") none (fun _ => NetResponse.http 500 none "server stumbled" PyJson.nullv)).outcome
      = Except.error (BraveErr.searchError ("HTTP " ++ toString 500 ++ ": " ++ pySlice "server stumbled" 400)) :=
  ⟨rfl, by decide, by decide,
   (c4_httpErrorRetriedWithExcerpt (some "k") none 500 none "server stumbled" PyJson.nullv
      rfl (by decide) (by decide)).2.1,
   (c4_httpErrorRetriedWithExcerpt (some "k") none 500 none "server stumbled" PyJson.nullv
      rfl (by decide) (by decide)).1⟩

/-! ## C7: 429 rate limiting -/

/-- A successful `float(ra)` parse implies the header string was non-empty. -/
lemma pyFloat_ne_empty {s : String} {q : ℚ} (h : pyFloat s = some q) : s ≠ "" := by
  intro he
  subst he
  simp [pyFloat] at h

/-- Claim C7: a 429 response is retried; the body first sleeps the parsed
`Retry-After` duration (lines 180-187), tenacity adds its backoff, and a
success on the second attempt returns that payload with exactly 2 attempts
(and 2 network requests).  The single inter-attempt wait is the `Retry-After`
duration plus the tenacity backoff, hence at least the `Retry-After`
duration. -/
theorem c7_rateLimitRetry (apiKey envKey : Option String) (raStr : String) (q : ℚ)
    (body1 body2 : String) (junk pl : PyJson)
    (hKey : pyTruthy (pyOrOpt apiKey envKey) = true)
    (hra : pyFloat raStr = some q) :
    (braveSearchRun apiKey envKey (fun i =>
        if i = 0 then NetResponse.http 429 (some raStr) body1 junk
        else NetResponse.http 200 none body2 pl)).outcome = Except.ok pl ∧
    (braveSearchRun apiKey envKey (fun i =>
        if i = 0 then NetResponse.http 429 (some raStr) body1 junk
        else NetResponse.http 200 none body2 pl)).attempts = 2 ∧
    (braveSearchRun apiKey envKey (fun i =>
        if i = 0 then NetResponse.http 429 (some raStr) body1 junk
        else NetResponse.http 200 none body2 pl)).networkCalls = 2 ∧
    ∃ w, (braveSearchRun apiKey envKey (fun i =>
        if i = 0 then NetResponse.http 429 (some raStr) body1 junk
        else NetResponse.http 200 none body2 pl)).waits = [w] ∧ q ≤ w := by
  have hne : raStr ≠ "" := pyFloat_ne_empty hra
  have hbody1 : braveSearchBody apiKey envKey (NetResponse.http 429 (some raStr) body1 junk)
      = ⟨Except.error (BraveErr.searchError "Rate limited (429)"), true, q⟩ := by
    unfold braveSearchBody
    simp only [hKey, Bool.true_eq_false, if_false]
    norm_num [hne, hra]
  have hbody2 : braveSearchBody apiKey envKey (NetResponse.http 200 none body2 pl)
      = ⟨Except.ok pl, true, 0⟩ := by
    unfold braveSearchBody
    simp only [hKey, Bool.true_eq_false, if_false]
    norm_num
  refine ⟨?_, ?_, ?_, ⟨q + tenacityWait 1, ?_, ?_⟩⟩
  · simp [braveSearchRun, tenacityLoop, hbody1, hbody2, retryableErr]
  · simp [braveSearchRun, tenacityLoop, hbody1, hbody2, retryableErr]
  · simp [braveSearchRun, tenacityLoop, hbody1, hbody2, retryableErr]
  · simp [braveSearchRun, tenacityLoop, hbody1, hbody2, retryableErr]
  · exact le_add_of_nonneg_right (by norm_num [tenacityWait])

/-- Witness for `c7_rateLimitRetry` at a concrete input
(429 with `Retry-After: 1`, then 200). -/
theorem c7_rateLimitRetry_witness :
    pyFloat "1" = some 1 ∧
    (braveSearchRun (some "k") none (fun i =>
        if i = 0 then NetResponse.http 429 (some "1") "" PyJson.nullv
        else NetResponse.http 200 none "" (PyJson.str "payload"))).outcome
      = Except.ok (PyJson.str "payload") ∧
    (braveSearchRun (some "k") none (fun i =>
        if i = 0 then NetResponse.http 429 (some "1") "" PyJson.nullv
        else NetResponse.http 200 none "" (PyJson.str "payload"))).attempts = 2 :=
  ⟨by decide,
   (c7_rateLimitRetry (some "k") none "1" 1 "" "" PyJson.nullv (PyJson.str "payload")
      rfl (by decide)).1,
   (c7_rateLimitRetry (some "k") none "1" 1 "" "" PyJson.nullv (PyJson.str "payload")
      rfl (by decide)).2.1⟩
